import Mathlib

/-!
Shallow embedding of the ecuc-configurator core (src/autosar/...) in Lean 4.

Conventions used throughout:
- Python ints are modelled as `Int`, Python floats as `Rat` (exact arithmetic
  idealisation of IEEE doubles); Python `int(x)` is truncation toward zero.
- pydantic-validated construction is modelled by `mk…` functions returning
  `Except String _`: field constraints are checked in field-declaration order,
  then custom field validators, then model validators, mirroring pydantic's
  order; the first failing check produces the error.  A plain structure value
  represents an already-constructed (hence validated or legacy) object.
- Randomly generated `uuid` fields, the free-form `metadata`/`attributes`
  dicts (typed `Dict[str, Any]` in the source) and logging calls are not part
  of the functional behaviour and are omitted; warnings emitted via
  `logger.warning` in the generator are modelled as an explicit list.
-/

/-! Enumerations from src/autosar/model/types.py. -/

inductive ByteOrder where
  | little_endian
  | big_endian
deriving DecidableEq, Repr

inductive ValueType where
  | signed
  | unsigned
  | float
  | double
deriving DecidableEq, Repr

inductive SignalType where
  | standard
  | multiplexer
  | multiplexed
deriving DecidableEq, Repr

inductive LINNodeType where
  | master
  | slave
deriving DecidableEq, Repr

inductive FrameType where
  | unconditional
  | event_triggered
  | sporadic
  | diagnostic
deriving DecidableEq, Repr

/-- String value of a `FrameType` member (the `.value` attribute of the
Python `str`-enum). -/
def FrameType.value : FrameType → String
  | .unconditional => "unconditional"
  | .event_triggered => "event_triggered"
  | .sporadic => "sporadic"
  | .diagnostic => "diagnostic"

inductive AutosarVersion where
  | ar_4_2_2
  | ar_4_5_0
deriving DecidableEq, Repr

inductive ECUCParameterType where
  | INTEGER
  | FLOAT
  | BOOLEAN
  | STRING
  | REFERENCE
  | ENUMERATION
deriving DecidableEq, Repr

/-! Numeric helpers. -/

/-- Python `int(x)` applied to a float: truncation toward zero. -/
def truncRat (q : ℚ) : ℤ :=
  if 0 ≤ q then ⌊q⌋ else ⌈q⌉

/-- Lowercase hexadecimal digits of a natural number, most significant
first, as produced by Python `format(_, 'x')`. -/
def natHexLower (n : Nat) : String :=
  String.mk (Nat.toDigits 16 n)

/-- Python `f"{v:#x}"`: `0x`-prefixed lowercase hex, sign in front. -/
def intHexHash (v : ℤ) : String :=
  if v < 0 then "-0x" ++ natHexLower (-v).toNat else "0x" ++ natHexLower v.toNat

/-- Python `f"0x{v:X}"`: `0x` followed by uppercase hex digits of `v`
(the source only formats non-negative ids this way). -/
def intHexUpperPy (v : ℤ) : String :=
  "0x" ++ String.mk ((natHexLower v.toNat).data.map Char.toUpper)

/-! String helpers (substring test and Python `str.join`). -/

/-- Whether `pat` occurs contiguously inside `s` (as character lists). -/
def listContainsSub (s pat : List Char) : Bool :=
  (List.range (s.length + 1)).any (fun i => pat.isPrefixOf (s.drop i))

/-- Whether the string `pat` occurs contiguously inside `s`. -/
def containsSub (s pat : String) : Bool :=
  listContainsSub s.data pat.data

/-- Python `sep.join(items)`. -/
def joinWith (sep : String) : List String → String
  | [] => ""
  | [x] => x
  | x :: y :: rest => x ++ sep ++ joinWith sep (y :: rest)

/-- Result test for `Except`. -/
def exOk {ε α : Type} : Except ε α → Bool
  | .ok _ => true
  | .error _ => false

/-! Layout & Codec: CAN side (src/autosar/model/can_model.py). -/

structure ValueTableEntry where
  name : String
  value : ℤ
  label : String
deriving DecidableEq, Repr

structure ValueTable where
  name : String
  entries : List ValueTableEntry
deriving DecidableEq, Repr

/-- Lookup `ValueTable.get_label`. -/
def ValueTable.get_label (vt : ValueTable) (value : ℤ) : Option String :=
  (vt.entries.find? (fun e => e.value == value)).map (·.label)

/-- Lookup `ValueTable.get_value`. -/
def ValueTable.get_value (vt : ValueTable) (label : String) : Option ℤ :=
  (vt.entries.find? (fun e => e.label == label)).map (·.value)

structure CANSignal where
  name : String
  short_name : String
  start_bit : ℤ
  length : ℤ
  byte_order : ByteOrder := .little_endian
  value_type : ValueType := .unsigned
  signal_type : SignalType := .standard
  factor : ℚ := 1
  offset : ℚ := 0
  min_value : Option ℚ := none
  max_value : Option ℚ := none
  unit : Option String := none
  initial_value : Option ℚ := none
  multiplex_indicator : Option String := none
  value_table : Option ValueTable := none
  receivers : List String := []
deriving DecidableEq, Repr

/-- Validated construction of a `CANSignal`, mirroring the pydantic checks:
`name`/`short_name` min_length 1, `start_bit` in 0..63, `length` in 1..64
(field constraints), the `validate_bit_range` field validator (non-negativity,
subsumed by the field constraints) and the `validate_signal_fits_in_message`
model validator (`end_bit > 63` rejected). -/
def mkCANSignal (name short_name : String) (start_bit length : ℤ)
    (byte_order : ByteOrder := .little_endian)
    (value_type : ValueType := .unsigned)
    (signal_type : SignalType := .standard)
    (factor : ℚ := 1) (offset : ℚ := 0)
    (initial_value : Option ℚ := none)
    (receivers : List String := []) : Except String CANSignal :=
  if name = "" then .error "name: String should have at least 1 character"
  else if short_name = "" then .error "short_name: String should have at least 1 character"
  else if start_bit < 0 then .error "start_bit: Input should be greater than or equal to 0"
  else if start_bit > 63 then .error "start_bit: Input should be less than or equal to 63"
  else if length < 1 then .error "length: Input should be greater than or equal to 1"
  else if length > 64 then .error "length: Input should be less than or equal to 64"
  else
    -- model validator validate_signal_fits_in_message: both byte-order
    -- branches in the source compute the same end bit.
    let end_bit := if byte_order = ByteOrder.little_endian
      then start_bit + length - 1
      else start_bit + length - 1
    if end_bit > 63 then
      .error ("Signal extends beyond message boundary: start_bit=" ++
        toString start_bit ++ ", length=" ++ toString length)
    else
      .ok { name := name, short_name := short_name, start_bit := start_bit,
            length := length, byte_order := byte_order, value_type := value_type,
            signal_type := signal_type, factor := factor, offset := offset,
            initial_value := initial_value, receivers := receivers }

/-- Codec `CANSignal.decode`: physical = raw * factor + offset. -/
def CANSignal.decode (s : CANSignal) (raw_value : ℤ) : ℚ :=
  raw_value * s.factor + s.offset

/-- Codec `CANSignal.encode`: `int((physical_value - self.offset) / self.factor)`,
Python `int()` truncating toward zero. -/
def CANSignal.encode (s : CANSignal) (physical_value : ℚ) : ℤ :=
  truncRat ((physical_value - s.offset) / s.factor)

structure CANMessage where
  name : String
  short_name : String
  is_extended : Bool := false
  message_id : ℤ
  dlc : ℤ
  signals : List CANSignal := []
  cycle_time : Option ℤ := none
  is_event_triggered : Bool := false
  sender : Option String := none
  comment : Option String := none
deriving DecidableEq, Repr

/-- Alias property `CANMessage.length` for `dlc`. -/
def CANMessage.length (m : CANMessage) : ℤ := m.dlc

/-- Validated construction of a `CANMessage`: `message_id` in 0..0x1FFFFFFF
(field constraint) then the `validate_message_id` field validator gating the
standard-frame bound by `is_extended`, and `dlc` in 0..8; `cycle_time` must be
non-negative when present. -/
def mkCANMessage (name short_name : String) (is_extended : Bool)
    (message_id : ℤ) (dlc : ℤ)
    (signals : List CANSignal := [])
    (cycle_time : Option ℤ := none)
    (sender : Option String := none) : Except String CANMessage :=
  if name = "" then .error "name: String should have at least 1 character"
  else if short_name = "" then .error "short_name: String should have at least 1 character"
  else if message_id < 0 then .error "message_id: Input should be greater than or equal to 0"
  else if message_id > 0x1FFFFFFF then .error "message_id: Input should be less than or equal to 536870911"
  else if is_extended = false ∧ message_id > 0x7FF then
    .error ("Standard frame ID must be <= 0x7FF, got " ++ intHexUpperPy message_id)
  else if dlc < 0 then .error "dlc: Input should be greater than or equal to 0"
  else if dlc > 8 then .error "dlc: Input should be less than or equal to 8"
  else if cycle_time.any (fun ct => decide (ct < 0)) then
    .error "cycle_time: Input should be greater than or equal to 0"
  else
    .ok { name := name, short_name := short_name, is_extended := is_extended,
          message_id := message_id, dlc := dlc, signals := signals,
          cycle_time := cycle_time, sender := sender }

/-- Predicate `CANMessage.is_tx`: true iff a sender is set. -/
def CANMessage.is_tx (m : CANMessage) : Bool :=
  m.sender.isSome

/-- Predicate `CANMessage.is_rx`: always true in the source. -/
def CANMessage.is_rx (_m : CANMessage) : Bool :=
  true

structure CANNode where
  name : String
  short_name : String
  transmitted_messages : List String := []
  received_messages : List String := []
  comment : Option String := none
deriving DecidableEq, Repr

structure CANDatabase where
  name : String
  version : String := "1.0"
  protocol : String := "CAN"
  baudrate : Option ℤ := none
  messages : List CANMessage := []
  nodes : List CANNode := []
  value_tables : List ValueTable := []
deriving DecidableEq, Repr

/-- Lookup `CANDatabase.get_message_by_id` (linear scan). -/
def CANDatabase.get_message_by_id (db : CANDatabase) (message_id : ℤ) : Option CANMessage :=
  db.messages.find? (fun m => m.message_id == message_id)

/-- Lookup `CANDatabase.get_message_by_name` (linear scan). -/
def CANDatabase.get_message_by_name (db : CANDatabase) (name : String) : Option CANMessage :=
  db.messages.find? (fun m => m.name == name)

/-! LIN models (src/autosar/model/lin_model.py). -/

structure LINSignal where
  name : String
  short_name : String
  start_bit : ℤ
  length : ℤ
  factor : ℚ := 1
  offset : ℚ := 0
  min_value : Option ℚ := none
  max_value : Option ℚ := none
  unit : Option String := none
  initial_value : Option ℚ := none
  publisher : Option String := none
  subscribers : List String := []
deriving DecidableEq, Repr

/-- Validated construction of a `LINSignal`.  The pydantic model declares only
`start_bit >= 0` and `length` in 1..64; unlike `CANSignal` it has no model
validator bounding `start_bit + length`. -/
def mkLINSignal (name short_name : String) (start_bit length : ℤ)
    (initial_value : Option ℚ := none)
    (publisher : Option String := none)
    (subscribers : List String := []) : Except String LINSignal :=
  if name = "" then .error "name: String should have at least 1 character"
  else if short_name = "" then .error "short_name: String should have at least 1 character"
  else if start_bit < 0 then .error "start_bit: Input should be greater than or equal to 0"
  else if length < 1 then .error "length: Input should be greater than or equal to 1"
  else if length > 64 then .error "length: Input should be less than or equal to 64"
  else
    .ok { name := name, short_name := short_name, start_bit := start_bit,
          length := length, initial_value := initial_value,
          publisher := publisher, subscribers := subscribers }

structure LINFrame where
  name : String
  short_name : String
  frame_id : ℤ
  frame_type : FrameType := .unconditional
  length : ℤ
  signals : List LINSignal := []
  publisher : Option String := none
deriving DecidableEq, Repr

/-- Validated construction of a `LINFrame`: `frame_id` in 0..0x3F (field
constraint, re-checked by the `validate_frame_id` field validator with the
same range) and `length` in 1..8. -/
def mkLINFrame (name short_name : String) (frame_id : ℤ) (length : ℤ)
    (signals : List LINSignal := [])
    (publisher : Option String := none) : Except String LINFrame :=
  if name = "" then .error "name: String should have at least 1 character"
  else if short_name = "" then .error "short_name: String should have at least 1 character"
  else if frame_id < 0 then .error "frame_id: Input should be greater than or equal to 0"
  else if frame_id > 0x3F then .error "frame_id: Input should be less than or equal to 63"
  else if ¬ (0 ≤ frame_id ∧ frame_id ≤ 0x3F) then
    .error ("LIN frame ID must be 0-63, got " ++ toString frame_id)
  else if length < 1 then .error "length: Input should be greater than or equal to 1"
  else if length > 8 then .error "length: Input should be less than or equal to 8"
  else
    .ok { name := name, short_name := short_name, frame_id := frame_id,
          length := length, signals := signals, publisher := publisher }

structure LINNode where
  name : String
  short_name : String
  node_type : LINNodeType
  protocol_version : String := "2.1"
  published_frames : List String := []
  subscribed_frames : List String := []
  supports_diagnostics : Bool := false
  configured_nad : Option ℤ := none
  initial_nad : Option ℤ := none
  supplier_id : Option ℤ := none
  function_id : Option ℤ := none
deriving DecidableEq, Repr

/-- Validated construction of a `LINNode`: the optional NAD fields must lie
in 1..127 when present. -/
def mkLINNode (name short_name : String) (node_type : LINNodeType)
    (protocol_version : String := "2.1")
    (configured_nad : Option ℤ := none)
    (initial_nad : Option ℤ := none) : Except String LINNode :=
  if name = "" then .error "name: String should have at least 1 character"
  else if short_name = "" then .error "short_name: String should have at least 1 character"
  else if configured_nad.any (fun v => decide (v < 1 ∨ 127 < v)) then
    .error "configured_nad: Input should be in 1..127"
  else if initial_nad.any (fun v => decide (v < 1 ∨ 127 < v)) then
    .error "initial_nad: Input should be in 1..127"
  else
    .ok { name := name, short_name := short_name, node_type := node_type,
          protocol_version := protocol_version,
          configured_nad := configured_nad, initial_nad := initial_nad }

structure ScheduleEntry where
  name : String
  frame_name : String
  delay : ℚ
  position : ℤ
deriving DecidableEq, Repr

/-- Validated construction of a `ScheduleEntry`: `delay >= 0`, `position >= 0`. -/
def mkScheduleEntry (name frame_name : String) (delay : ℚ) (position : ℤ) :
    Except String ScheduleEntry :=
  if name = "" then .error "name: String should have at least 1 character"
  else if delay < 0 then .error "delay: Input should be greater than or equal to 0"
  else if position < 0 then .error "position: Input should be greater than or equal to 0"
  else .ok { name := name, frame_name := frame_name, delay := delay, position := position }

structure ScheduleTable where
  name : String
  short_name : String
  entries : List ScheduleEntry := []
deriving DecidableEq, Repr

/-- Duration `ScheduleTable.get_total_duration`: sum of entry delays. -/
def ScheduleTable.get_total_duration (t : ScheduleTable) : ℚ :=
  (t.entries.map (·.delay)).sum

structure LINNetwork where
  name : String
  protocol_version : String := "2.1"
  language_version : String := "2.1"
  speed : ℚ := 96 / 5
  master_node : Option LINNode := none
  slave_nodes : List LINNode := []
  frames : List LINFrame := []
  schedule_tables : List ScheduleTable := []
  diagnostic_nad_min : ℤ := 0x01
  diagnostic_nad_max : ℤ := 0x7F
deriving DecidableEq, Repr

/-- Alias property `LINNetwork.baudrate`: speed in kbps converted to bps. -/
def LINNetwork.baudrate (n : LINNetwork) : ℚ :=
  n.speed * 1000

/-- Lookup `LINNetwork.get_frame_by_id` (linear scan). -/
def LINNetwork.get_frame_by_id (n : LINNetwork) (frame_id : ℤ) : Option LINFrame :=
  n.frames.find? (fun f => f.frame_id == frame_id)

/-- Lookup `LINNetwork.get_frame_by_name` (linear scan). -/
def LINNetwork.get_frame_by_name (n : LINNetwork) (name : String) : Option LINFrame :=
  n.frames.find? (fun f => f.name == name)

/-! LDF loader (src/autosar/loader/ldf_loader.py).  The parsed-dictionary
shape produced by `LDFLoader.load` is embedded as explicit structures; the
claims under verification concern `LDFLoader.validate` and
`LDFLoader.to_model`, which consume that shape. -/

structure LDFSignalData where
  name : String
  length : ℤ
  initial_value : ℤ
  publisher : String
  subscribers : List String := []
deriving DecidableEq, Repr

structure LDFFrameSignalRef where
  name : String
  offset : ℤ
deriving DecidableEq, Repr

structure LDFFrameData where
  name : String
  frame_id : ℤ
  publisher : String
  length : ℤ
  signals : List LDFFrameSignalRef := []
deriving DecidableEq, Repr

structure LDFNodeData where
  name : String
  ntype : String
deriving DecidableEq, Repr

structure LDFScheduleEntryData where
  frame_name : String
  delay : ℚ
  position : ℤ
deriving DecidableEq, Repr

structure LDFScheduleTableData where
  name : String
  entries : List LDFScheduleEntryData := []
deriving DecidableEq, Repr

structure LDFHeader where
  protocol_version : Option String := none
  language_version : Option String := none
  speed : Option ℚ := none
deriving DecidableEq, Repr

structure LDFData where
  file_stem : Option String := none
  header : LDFHeader := {}
  nodes : List LDFNodeData := []
  signals : List LDFSignalData := []
  frames : List LDFFrameData := []
  schedule_tables : List LDFScheduleTableData := []
deriving DecidableEq, Repr

/-- Validation pass `LDFLoader.validate`: the required keys are always
present in the embedded structure and the `isinstance(..., list)` checks
always hold, so the one live check is the at-least-one-master rule. -/
def ldf_validate (d : LDFData) : Except String Bool :=
  if (d.nodes.filter (fun n => n.ntype == "master")) = [] then
    .error "LIN network must have at least one master node"
  else
    .ok true

/-- Python dict lookup over an association list built by repeated
`dict[key] = value` assignment: the latest binding for a key wins. -/
def dictLookup (m : List (String × LINSignal)) (key : String) : Option LINSignal :=
  (m.reverse.find? (fun p => p.1 == key)).map (·.2)

/-- First conversion loop of `LDFLoader.to_model`: every declared signal is
instantiated once with `start_bit = 0` and stored in `signals_by_name`. -/
def buildSignalMap : List LDFSignalData → Except String (List (String × LINSignal))
  | [] => .ok []
  | sd :: rest =>
      match mkLINSignal sd.name sd.name 0 sd.length
        (some (sd.initial_value : ℚ)) (some sd.publisher) sd.subscribers with
      | .error e => .error e
      | .ok s =>
          match buildSignalMap rest with
          | .error e => .error e
          | .ok m => .ok ((sd.name, s) :: m)

/-- Per-frame signal resolution inside `LDFLoader.to_model`: a referenced
name found in `signals_by_name` yields a fresh `LINSignal` carrying the
reference's offset as `start_bit`; an unknown name is skipped. -/
def resolveFrameSignals (sigMap : List (String × LINSignal)) :
    List LDFFrameSignalRef → Except String (List LINSignal)
  | [] => .ok []
  | ref :: rest =>
      match dictLookup sigMap ref.name with
      | none => resolveFrameSignals sigMap rest
      | some s =>
          match mkLINSignal s.name s.short_name ref.offset s.length
            s.initial_value s.publisher s.subscribers with
          | .error e => .error e
          | .ok s2 =>
              match resolveFrameSignals sigMap rest with
              | .error e => .error e
              | .ok srest => .ok (s2 :: srest)

/-- Frame conversion loop of `LDFLoader.to_model`. -/
def buildFrames (sigMap : List (String × LINSignal)) :
    List LDFFrameData → Except String (List LINFrame)
  | [] => .ok []
  | fd :: rest =>
      match resolveFrameSignals sigMap fd.signals with
      | .error e => .error e
      | .ok fsigs =>
          match mkLINFrame fd.name fd.name fd.frame_id fd.length
            fsigs (some fd.publisher) with
          | .error e => .error e
          | .ok fr =>
              match buildFrames sigMap rest with
              | .error e => .error e
              | .ok frest => .ok (fr :: frest)

/-- Node conversion loop of `LDFLoader.to_model`: a later master overwrites
an earlier one; slaves are appended in order. -/
def buildNodes (protocol_version : String) :
    List LDFNodeData → Except String (Option LINNode × List LINNode)
  | [] => .ok (none, [])
  | nd :: rest =>
      let node_type := if nd.ntype == "master" then LINNodeType.master else LINNodeType.slave
      match mkLINNode nd.name nd.name node_type protocol_version with
      | .error e => .error e
      | .ok node =>
          match buildNodes protocol_version rest with
          | .error e => .error e
          | .ok (m, slaves) =>
              if node_type = LINNodeType.master then
                -- the source assigns master_node on each master; with the
                -- remaining list processed recursively, the last master in
                -- input order wins.
                .ok (some (m.getD node), slaves)
              else
                .ok (m, node :: slaves)

/-- Schedule-entry conversion inside one table of `LDFLoader.to_model`. -/
def buildScheduleEntries (table_name : String) :
    List LDFScheduleEntryData → Except String (List ScheduleEntry)
  | [] => .ok []
  | ed :: rest =>
      match mkScheduleEntry (table_name ++ "_entry_" ++ toString ed.position)
        ed.frame_name ed.delay ed.position with
      | .error e => .error e
      | .ok entry =>
          match buildScheduleEntries table_name rest with
          | .error e => .error e
          | .ok erest => .ok (entry :: erest)

/-- Schedule-table conversion loop of `LDFLoader.to_model` (per table). -/
def buildScheduleTables :
    List LDFScheduleTableData → Except String (List ScheduleTable)
  | [] => .ok []
  | td :: rest =>
      match buildScheduleEntries td.name td.entries with
      | .error e => .error e
      | .ok entries =>
          match buildScheduleTables rest with
          | .error e => .error e
          | .ok trest =>
              .ok ({ name := td.name, short_name := td.name, entries := entries } :: trest)

/-- Conversion body of `LDFLoader.to_model` (before exception wrapping). -/
def to_model_core (d : LDFData) : Except String LINNetwork :=
  let protocol_version := d.header.protocol_version.getD "2.1"
  let language_version := d.header.language_version.getD "2.1"
  let speed := d.header.speed.getD (96 / 5)
  match buildSignalMap d.signals with
  | .error e => .error e
  | .ok sigMap =>
    match buildFrames sigMap d.frames with
    | .error e => .error e
    | .ok frames =>
      match buildNodes protocol_version d.nodes with
      | .error e => .error e
      | .ok (master_node, slave_nodes) =>
        match buildScheduleTables d.schedule_tables with
        | .error e => .error e
        | .ok schedule_tables =>
          let file_name := d.file_stem.getD "lin_network"
          if file_name = "" then .error "name: String should have at least 1 character"
          else
            .ok { name := file_name, protocol_version := protocol_version,
                  language_version := language_version, speed := speed,
                  master_node := master_node, slave_nodes := slave_nodes,
                  frames := frames, schedule_tables := schedule_tables }

/-- Conversion `LDFLoader.to_model`: any internal failure is wrapped into one
`ConversionError` carrying the cause. -/
def to_model (d : LDFData) : Except String LINNetwork :=
  match to_model_core d with
  | .ok net => .ok net
  | .error e => .error ("Failed to convert to model: " ++ e)

/-! ECUC configuration tree model (src/autosar/model/ecuc_model.py). -/

/-- Polymorphic parameter value (`Union[int, float, bool, str]` in the
source). -/
inductive PVal where
  | int (i : ℤ)
  | float (q : ℚ)
  | bool (b : Bool)
  | str (s : String)
deriving DecidableEq, Repr

structure ECUCParameterValue where
  short_name : String
  name : String
  definition_ref : String
  value_type : ECUCParameterType
  value : Option PVal := none
  reference_value : Option String := none
deriving DecidableEq, Repr

/-- Recursive container value: parameters plus nested sub-containers. -/
inductive ECUCContainerValue where
  | mk (short_name name definition_ref : String)
       (parameters : List ECUCParameterValue)
       (sub_containers : List ECUCContainerValue)
deriving Repr

/-- Accessor for the container short name. -/
def ECUCContainerValue.short_name : ECUCContainerValue → String
  | .mk s _ _ _ _ => s

/-- Accessor for the container display name. -/
def ECUCContainerValue.cname : ECUCContainerValue → String
  | .mk _ n _ _ _ => n

/-- Accessor for the container definition reference. -/
def ECUCContainerValue.definition_ref : ECUCContainerValue → String
  | .mk _ _ d _ _ => d

/-- Accessor for the parameter list. -/
def ECUCContainerValue.parameters : ECUCContainerValue → List ECUCParameterValue
  | .mk _ _ _ ps _ => ps

/-- Accessor for the sub-container list. -/
def ECUCContainerValue.sub_containers : ECUCContainerValue → List ECUCContainerValue
  | .mk _ _ _ _ subs => subs

structure ECUCModuleConfigurationValues where
  short_name : String
  name : String
  module_def_ref : String
  containers : List ECUCContainerValue := []
deriving Repr

structure ECUCValueCollection where
  short_name : String
  name : String
  autosar_version : AutosarVersion := .ar_4_2_2
  modules : List ECUCModuleConfigurationValues := []
deriving Repr

structure ECUCProject where
  short_name : String
  name : String
  autosar_version : AutosarVersion := .ar_4_2_2
  ecu_instance : String
  value_collection : ECUCValueCollection
  source_files : List String := []
deriving Repr

/-! ECUC service (src/autosar/service/ecuc_service.py).  The session state —
named networks held in insertion-ordered dicts — is embedded as association
lists; duplicate network names cannot arise because dict insertion keys them. -/

structure ServiceState where
  autosar_version : AutosarVersion := .ar_4_2_2
  can_networks : List (String × CANDatabase) := []
  lin_networks : List (String × LINNetwork) := []
  source_files : List String := []

/-- Duplicate-id and oversized-signal scan over one CAN network's messages,
accumulating the exact error strings of `ECUCService.validate_data`; `seen`
is the running `message_ids` set. -/
def canMsgViolationsAux (network_name : String) (seen : List ℤ) :
    List CANMessage → List String
  | [] => []
  | msg :: rest =>
      (if seen.contains msg.message_id then
        ["Duplicate CAN message ID " ++ intHexHash msg.message_id ++
          " in network '" ++ network_name ++ "'"]
      else []) ++
      (msg.signals.filterMap (fun sig =>
        if sig.start_bit + sig.length > msg.dlc * 8 then
          some ("Signal '" ++ sig.name ++ "' exceeds message '" ++ msg.name ++
            "' size in network '" ++ network_name ++ "'")
        else none)) ++
      canMsgViolationsAux network_name (seen ++ [msg.message_id]) rest

/-- Violations collected for one CAN network. -/
def canMsgViolations (network_name : String) (msgs : List CANMessage) : List String :=
  canMsgViolationsAux network_name [] msgs

/-- Duplicate-id and oversized-signal scan over one LIN network's frames. -/
def linFrameViolationsAux (network_name : String) (seen : List ℤ) :
    List LINFrame → List String
  | [] => []
  | frame :: rest =>
      (if seen.contains frame.frame_id then
        ["Duplicate LIN frame ID " ++ intHexHash frame.frame_id ++
          " in network '" ++ network_name ++ "'"]
      else []) ++
      (frame.signals.filterMap (fun sig =>
        if sig.start_bit + sig.length > frame.length * 8 then
          some ("Signal '" ++ sig.name ++ "' exceeds frame '" ++ frame.name ++
            "' size in network '" ++ network_name ++ "'")
        else none)) ++
      linFrameViolationsAux network_name (seen ++ [frame.frame_id]) rest

/-- Violations collected for one LIN network. -/
def linFrameViolations (network_name : String) (frames : List LINFrame) : List String :=
  linFrameViolationsAux network_name [] frames

/-- All violations accumulated by `ECUCService.validate_data`: every CAN
network is scanned, then every LIN network. -/
def collectViolations (st : ServiceState) : List String :=
  (st.can_networks.flatMap (fun p => canMsgViolations p.1 p.2.messages)) ++
  (st.lin_networks.flatMap (fun p => linFrameViolations p.1 p.2.frames))

/-- Validation pass `ECUCService.validate_data`: accumulates all violations
and raises one `ValidationError` listing them, or returns `True`. -/
def validate_data (st : ServiceState) : Except String Bool :=
  let errors := collectViolations st
  if errors = [] then .ok true
  else .error ("Validation failed:\n" ++
    joinWith "\n" (errors.map (fun e => "  - " ++ e)))

/-- Declarative violation predicate for one CAN network: some message id is
duplicated, or some signal's bit range exceeds its message's size. -/
def CANDatabase.hasViolation (db : CANDatabase) : Prop :=
  ¬ (db.messages.map (·.message_id)).Nodup ∨
    ∃ m ∈ db.messages, ∃ s ∈ m.signals, s.start_bit + s.length > m.dlc * 8

/-- Declarative violation predicate for one LIN network: some frame id is
duplicated, or some signal's bit range exceeds its frame's size. -/
def LINNetwork.hasViolation (n : LINNetwork) : Prop :=
  ¬ (n.frames.map (·.frame_id)).Nodup ∨
    ∃ f ∈ n.frames, ∃ s ∈ f.signals, s.start_bit + s.length > f.length * 8

/-- Declarative violation predicate over a whole service state. -/
def ServiceState.hasViolation (st : ServiceState) : Prop :=
  (∃ p ∈ st.can_networks, CANDatabase.hasViolation p.2) ∨
  (∃ p ∈ st.lin_networks, LINNetwork.hasViolation p.2)

/-- Copy of a service state with every LIN network's master node removed. -/
def ServiceState.stripMasters (st : ServiceState) : ServiceState :=
  { st with lin_networks :=
      st.lin_networks.map (fun p => (p.1, { p.2 with master_node := none })) }

/-! ECUC generation (src/autosar/service/ecuc_service.py, generation half). -/

/-- Container builder `_generate_canif_ctrl_cfg`. -/
def generate_canif_ctrl_cfg (network_name : String) : ECUCContainerValue :=
  .mk ("CanIfCtrlCfg_" ++ network_name)
      ("Controller Config for " ++ network_name)
      "/AUTOSAR/EcucDefs/CanIf/CanIfInitCfg/CanIfCtrlCfg"
      [{ short_name := "CanIfCtrlId", name := "Controller ID",
         definition_ref := "/AUTOSAR/EcucDefs/CanIf/CanIfInitCfg/CanIfCtrlCfg/CanIfCtrlId",
         value_type := .INTEGER, value := some (.int 0) }]
      []

/-- Container builder `_generate_canif_tx_pdu`: the message id is emitted
both as the PDU id and as the CAN id. -/
def generate_canif_tx_pdu (network_name : String) (message : CANMessage) :
    ECUCContainerValue :=
  .mk ("CanIfTxPdu_" ++ network_name ++ "_" ++ message.name)
      ("TX PDU for " ++ message.name)
      "/AUTOSAR/EcucDefs/CanIf/CanIfInitCfg/CanIfTxPduCfg"
      [{ short_name := "CanIfTxPduId", name := "TX PDU ID",
         definition_ref := "/AUTOSAR/EcucDefs/CanIf/CanIfInitCfg/CanIfTxPduCfg/CanIfTxPduId",
         value_type := .INTEGER, value := some (.int message.message_id) },
       { short_name := "CanIfTxPduCanId", name := "CAN ID",
         definition_ref := "/AUTOSAR/EcucDefs/CanIf/CanIfInitCfg/CanIfTxPduCfg/CanIfTxPduCanId",
         value_type := .INTEGER, value := some (.int message.message_id) }]
      []

/-- Container builder `_generate_canif_rx_pdu`. -/
def generate_canif_rx_pdu (network_name : String) (message : CANMessage) :
    ECUCContainerValue :=
  .mk ("CanIfRxPdu_" ++ network_name ++ "_" ++ message.name)
      ("RX PDU for " ++ message.name)
      "/AUTOSAR/EcucDefs/CanIf/CanIfInitCfg/CanIfRxPduCfg"
      [{ short_name := "CanIfRxPduId", name := "RX PDU ID",
         definition_ref := "/AUTOSAR/EcucDefs/CanIf/CanIfInitCfg/CanIfRxPduCfg/CanIfRxPduId",
         value_type := .INTEGER, value := some (.int message.message_id) },
       { short_name := "CanIfRxPduCanId", name := "CAN ID",
         definition_ref := "/AUTOSAR/EcucDefs/CanIf/CanIfInitCfg/CanIfRxPduCfg/CanIfRxPduCanId",
         value_type := .INTEGER, value := some (.int message.message_id) }]
      []

/-- Module builder `_generate_canif_module`: one `CanIfInitCfg` container
holding, per CAN network, one controller config, one TX PDU per message with
`is_tx` true and one RX PDU per message with `is_rx` true. -/
def generate_canif_module (st : ServiceState) : ECUCModuleConfigurationValues :=
  let init_cfg : ECUCContainerValue :=
    .mk "CanIfInitCfg" "CAN Interface Initial Configuration"
        "/AUTOSAR/EcucDefs/CanIf/CanIfInitCfg" []
        (st.can_networks.flatMap (fun p =>
          generate_canif_ctrl_cfg p.1 ::
          ((p.2.messages.filter (fun m => m.is_tx)).map (generate_canif_tx_pdu p.1) ++
           (p.2.messages.filter (fun m => m.is_rx)).map (generate_canif_rx_pdu p.1))))
  { short_name := "CanIf", name := "CAN Interface Configuration",
    module_def_ref := "/AUTOSAR/EcucDefs/CanIf", containers := [init_cfg] }

/-- Container builder `_generate_can_controller`: controller id is always 0;
the baud rate parameter carries the network's baudrate (or `None`). -/
def generate_can_controller (network_name : String) (network : CANDatabase) :
    ECUCContainerValue :=
  .mk ("CanController_" ++ network_name)
      ("CAN Controller for " ++ network_name)
      "/AUTOSAR/EcucDefs/Can/CanConfigSet/CanController"
      [{ short_name := "CanControllerId", name := "Controller ID",
         definition_ref := "/AUTOSAR/EcucDefs/Can/CanConfigSet/CanController/CanControllerId",
         value_type := .INTEGER, value := some (.int 0) },
       { short_name := "CanControllerBaudRate", name := "Baudrate",
         definition_ref := "/AUTOSAR/EcucDefs/Can/CanConfigSet/CanController/CanControllerBaudRate",
         value_type := .INTEGER, value := network.baudrate.map PVal.int }]
      []

/-- Module builder `_generate_can_module`: one fixed `CanGeneral` container
plus one `CanConfigSet` holding one controller per CAN network. -/
def generate_can_module (st : ServiceState) : ECUCModuleConfigurationValues :=
  let general : ECUCContainerValue :=
    .mk "CanGeneral" "CAN General Configuration"
        "/AUTOSAR/EcucDefs/Can/CanGeneral"
        [{ short_name := "CanDevErrorDetect", name := "Development Error Detection",
           definition_ref := "/AUTOSAR/EcucDefs/Can/CanGeneral/CanDevErrorDetect",
           value_type := .BOOLEAN, value := some (.bool true) }]
        []
  let config_set : ECUCContainerValue :=
    .mk "CanConfigSet" "CAN Configuration Set"
        "/AUTOSAR/EcucDefs/Can/CanConfigSet" []
        (st.can_networks.map (fun p => generate_can_controller p.1 p.2))
  { short_name := "Can", name := "CAN Driver Configuration",
    module_def_ref := "/AUTOSAR/EcucDefs/Can", containers := [general, config_set] }

/-- Container builder `_generate_linif_channel`: one sub-container per frame
carrying its frame-type tag. -/
def generate_linif_channel (network_name : String) (network : LINNetwork) :
    ECUCContainerValue :=
  .mk ("LinIfChannel_" ++ network_name)
      ("LIN Channel for " ++ network_name)
      "/AUTOSAR/EcucDefs/LinIf/LinIfChannel" []
      (network.frames.map (fun frame =>
        .mk ("LinIfFrame_" ++ frame.name) ("Frame " ++ frame.name)
            "/AUTOSAR/EcucDefs/LinIf/LinIfChannel/LinIfFrame"
            [{ short_name := "LinIfFrameType", name := "Frame Type",
               definition_ref := "/AUTOSAR/EcucDefs/LinIf/LinIfChannel/LinIfFrame/LinIfFrameType",
               value_type := .STRING, value := some (.str frame.frame_type.value) }]
            []))

/-- Module builder `_generate_linif_module`. -/
def generate_linif_module (st : ServiceState) : ECUCModuleConfigurationValues :=
  let global_cfg : ECUCContainerValue :=
    .mk "LinIfGlobalConfig" "LIN Interface Global Configuration"
        "/AUTOSAR/EcucDefs/LinIf/LinIfGlobalConfig"
        [{ short_name := "LinIfDevErrorDetect", name := "Development Error Detection",
           definition_ref := "/AUTOSAR/EcucDefs/LinIf/LinIfGlobalConfig/LinIfDevErrorDetect",
           value_type := .BOOLEAN, value := some (.bool true) }]
        []
  { short_name := "LinIf", name := "LIN Interface Configuration",
    module_def_ref := "/AUTOSAR/EcucDefs/LinIf",
    containers := global_cfg :: st.lin_networks.map (fun p => generate_linif_channel p.1 p.2) }

/-- Container builder `_generate_lin_channel`: the channel-level baud rate is
`int(network.baudrate)`. -/
def generate_lin_channel (network_name : String) (network : LINNetwork) :
    ECUCContainerValue :=
  .mk ("LinChannel_" ++ network_name)
      ("LIN Channel for " ++ network_name)
      "/AUTOSAR/EcucDefs/Lin/LinChannel"
      [{ short_name := "LinChannelBaudRate", name := "Baudrate",
         definition_ref := "/AUTOSAR/EcucDefs/Lin/LinChannel/LinChannelBaudRate",
         value_type := .INTEGER, value := some (.int (truncRat network.baudrate)) }]
      []

/-- Module builder `_generate_lin_module`. -/
def generate_lin_module (st : ServiceState) : ECUCModuleConfigurationValues :=
  let general : ECUCContainerValue :=
    .mk "LinGeneral" "LIN General Configuration"
        "/AUTOSAR/EcucDefs/Lin/LinGeneral"
        [{ short_name := "LinDevErrorDetect", name := "Development Error Detection",
           definition_ref := "/AUTOSAR/EcucDefs/Lin/LinGeneral/LinDevErrorDetect",
           value_type := .BOOLEAN, value := some (.bool true) }]
        []
  { short_name := "Lin", name := "LIN Driver Configuration",
    module_def_ref := "/AUTOSAR/EcucDefs/Lin",
    containers := general :: st.lin_networks.map (fun p => generate_lin_channel p.1 p.2) }

/-- Default module list chosen by `generate_ecuc_project` when `modules` is
`None`. -/
def defaultModules (st : ServiceState) : List String :=
  (if st.can_networks ≠ [] then ["CanIf", "Can", "CanTp", "PduR"] else []) ++
  (if st.lin_networks ≠ [] then ["LinIf", "Lin"] else [])

/-- Module generation loop of `generate_ecuc_project`: supported names build
a module; any other name is logged as a warning and skipped. -/
def generateModulesLoop (st : ServiceState) :
    List String → List ECUCModuleConfigurationValues × List String
  | [] => ([], [])
  | m :: rest =>
      let acc := generateModulesLoop st rest
      if m == "CanIf" then (generate_canif_module st :: acc.1, acc.2)
      else if m == "Can" then (generate_can_module st :: acc.1, acc.2)
      else if m == "LinIf" then (generate_linif_module st :: acc.1, acc.2)
      else if m == "Lin" then (generate_lin_module st :: acc.1, acc.2)
      else (acc.1, ("Module '" ++ m ++ "' not yet implemented") :: acc.2)

/-- Service entry point `generate_ecuc_project`: re-runs `validate_data`,
selects the module list (explicit or default), generates the supported
modules, and assembles the project.  The second component of the result pair
collects the `logger.warning` messages for skipped modules; a validation
failure is wrapped into one `GenerationError`. -/
def generate_ecuc_project (st : ServiceState)
    (project_name ecu_instance : String)
    (modules : Option (List String) := none) :
    Except String (ECUCProject × List String) :=
  match validate_data st with
  | .error e => .error ("Failed to generate ECUC project: " ++ e)
  | .ok _ =>
    let mods := modules.getD (defaultModules st)
    let (generated, warns) := generateModulesLoop st mods
    .ok ({ short_name := project_name, name := project_name,
           autosar_version := st.autosar_version,
           ecu_instance := ecu_instance,
           value_collection :=
             { short_name := project_name ++ "_EcucValues",
               name := project_name ++ " ECUC Values",
               autosar_version := st.autosar_version,
               modules := generated },
           source_files := st.source_files }, warns)

/-! Specification-side definitions used in theorem statements, plus concrete
fixtures for counterexamples and witnesses. -/

/-- Base `LINSignal` a declaration in the LDF `Signals` section instantiates
(`start_bit = 0`, remaining fields from the declaration). -/
def baseSignalOf (sd : LDFSignalData) : LINSignal :=
  { name := sd.name, short_name := sd.name, start_bit := 0, length := sd.length,
    initial_value := some (sd.initial_value : ℚ), publisher := some sd.publisher,
    subscribers := sd.subscribers }

/-- Position-specific copy of a declared signal at a frame-block offset,
following the spec's words: a fresh instance whose `start_bit` is the frame
block's offset and whose other fields are copied from the declaration. -/
def copyAt (sd : LDFSignalData) (offset : ℤ) : LINSignal :=
  { name := sd.name, short_name := sd.name, start_bit := offset, length := sd.length,
    initial_value := some (sd.initial_value : ℚ), publisher := some sd.publisher,
    subscribers := sd.subscribers }

/-- Resolution of a referenced name against the `Signals` declarations with
Python-dict semantics: the last declaration of a name wins. -/
def declLookup (decls : List LDFSignalData) (key : String) : Option LDFSignalData :=
  decls.reverse.find? (fun sd => sd.name == key)

/-- Declarative description of a frame block's signal list per the spec: each
reference whose name is declared yields a position-specific copy; undeclared
references yield nothing. -/
def specResolvedSignals (decls : List LDFSignalData) (refs : List LDFFrameSignalRef) :
    List LINSignal :=
  refs.filterMap (fun r => (declLookup decls r.name).map (fun sd => copyAt sd r.offset))

/-- Module names the generator supports. -/
def supportedModules : List String := ["CanIf", "Can", "LinIf", "Lin"]

/-- Projection of a generation result to module short names and warnings. -/
def generatedNamesAndWarnings (r : Except String (ECUCProject × List String)) :
    Option (List String × List String) :=
  r.toOption.map (fun pw => (pw.1.value_collection.modules.map (·.short_name), pw.2))

/-- Concrete signal with factor 1 and offset 0. -/
def sigC1 : CANSignal :=
  { name := "Speed", short_name := "Speed", start_bit := 0, length := 8 }

/-- Message with the given name and id, dlc 8, no signals. -/
def plainMsg (nm : String) (id : ℤ) : CANMessage :=
  { name := nm, short_name := nm, message_id := id, dlc := 8 }

/-- Service state holding one CAN network with two messages sharing id 0x100. -/
def stDup : ServiceState :=
  { can_networks := [("CanNet",
      { name := "CanNet", messages := [plainMsg "MsgA" 0x100, plainMsg "MsgB" 0x100] })] }

/-- The one violation string `validate_data` produces for `stDup`. -/
def vDup : String := "Duplicate CAN message ID 0x100 in network 'CanNet'"

/-- The full error message `validate_data` raises for `stDup`. -/
def eDup : String := "Validation failed:\n  - Duplicate CAN message ID 0x100 in network 'CanNet'"

/-- LIN network with no master node and no frames. -/
def linNoMaster : LINNetwork := { name := "LinNet" }

/-- Service state holding only `linNoMaster`. -/
def stNoMaster : ServiceState := { lin_networks := [("LinNet", linNoMaster)] }

/-- Parsed LDF data with no nodes at all (hence no master). -/
def ldfNoMaster : LDFData := {}

/-- Declared LDF signal `Sig: 8, 0, M, S;`. -/
def declSig : LDFSignalData :=
  { name := "Sig", length := 8, initial_value := 0, publisher := "M", subscribers := ["S"] }

/-- Parsed LDF data: one declared signal, one frame referencing it at offset 5. -/
def exLdf : LDFData :=
  { signals := [declSig],
    frames := [{ name := "F", frame_id := 16, publisher := "S", length := 2,
                 signals := [{ name := "Sig", offset := 5 }] }] }

/-- Network `to_model` produces from `exLdf`. -/
def exNet : LINNetwork :=
  { name := "lin_network",
    frames := [{ name := "F", short_name := "F", frame_id := 16, length := 2,
                 signals := [{ name := "Sig", short_name := "Sig", start_bit := 5,
                               length := 8, initial_value := some 0,
                               publisher := some "M", subscribers := ["S"] }],
                 publisher := some "S" }] }

/-- Signal map holding one declared signal named `Sig`. -/
def sigMapEx : List (String × LINSignal) :=
  [("Sig", { name := "Sig", short_name := "Sig", start_bit := 0, length := 8 })]

/-- One frame-block reference to the declared signal. -/
def refsEx : List LDFFrameSignalRef := [{ name := "Sig", offset := 0 }]

/-- Frame-block reference to a name absent from the declarations. -/
def ghostRef : LDFFrameSignalRef := { name := "Ghost", offset := 3 }

/-- Resolved signal list for `refsEx` against `sigMapEx`. -/
def resolvedEx : List LINSignal :=
  [{ name := "Sig", short_name := "Sig", start_bit := 0, length := 8 }]

/-- Transmitted CAN message (sender set) with id 0x200. -/
def msgTx : CANMessage :=
  { name := "Msg1", short_name := "Msg1", message_id := 0x200, dlc := 8,
    sender := some "ECU1" }

/-- CAN database with baud rate 500000 and the one transmitted message. -/
def dbEx : CANDatabase :=
  { name := "CanNet", baudrate := some 500000, messages := [msgTx] }

/-- Service state holding one CAN network and no LIN networks. -/
def stCan8 : ServiceState := { can_networks := [("CanNet", dbEx)] }

/-- LIN frame with the given name and id, length 2, no signals. -/
def plainFrame (nm : String) (id : ℤ) : LINFrame :=
  { name := nm, short_name := nm, frame_id := id, length := 2 }

/-- Service state holding one LIN network with two frames sharing id 0x10. -/
def stDupLin : ServiceState :=
  { lin_networks := [("LinNet2",
      { name := "LinNet2", frames := [plainFrame "FrA" 0x10, plainFrame "FrB" 0x10] })] }

/-- The one violation string `validate_data` produces for `stDupLin`. -/
def vDupLin : String := "Duplicate LIN frame ID 0x10 in network 'LinNet2'"

/-! Theorems.  Helper lemmas first, then one theorem per claim. -/

/-- Truncation toward zero is the identity on integers. -/
theorem truncRat_intCast (n : ℤ) : truncRat (n : ℚ) = n := by
  unfold truncRat
  split <;> simp

/-- C1 (amended): for every signal with factor ≠ 0 the codec round-trips
exactly: encoding the decoded physical value of any raw value in
[0, 2^length) returns that raw value (float arithmetic idealised as exact
rationals; encode truncates toward zero, which is exact here). -/
theorem C1_codec_roundtrip (s : CANSignal) (raw : ℤ)
    (hf : s.factor ≠ 0) (_h0 : 0 ≤ raw) (_h1 : raw < 2 ^ s.length.toNat) :
    s.encode (s.decode raw) = raw := by
  unfold CANSignal.encode CANSignal.decode
  have h2 : ((raw : ℚ) * s.factor + s.offset - s.offset) / s.factor = (raw : ℚ) := by
    field_simp
  rw [h2, truncRat_intCast]

/-- Witness for C1: the round-trip theorem applied to the concrete signal
`sigC1` (factor 1, offset 0, length 8) at raw value 3. -/
theorem C1_codec_roundtrip_witness : sigC1.encode (sigC1.decode 3) = 3 :=
  C1_codec_roundtrip sigC1 3 (by norm_num [sigC1]) (by norm_num) (by decide)

/-- Counterexample for C1 as stated: `encode` is not `round`: at physical
value 0.7 on a signal with factor 1 and offset 0, the code's `encode`
(truncation toward zero) yields 0 while the claimed `round` formula yields 1. -/
theorem C1_encode_is_not_round :
    sigC1.encode (7 / 10) = 0 ∧
    round (((7 / 10 : ℚ) - sigC1.offset) / sigC1.factor) = 1 := by
  constructor
  · norm_num [CANSignal.encode, sigC1, truncRat]
  · norm_num [sigC1, round_eq]

/-- C2 (amended): the 64-bit bound is enforced for CAN signals only:
constructing a `CANSignal` succeeds exactly when `0 ≤ start_bit`,
`1 ≤ length ≤ 64` and `start_bit + length ≤ 64`, while constructing a
`LINSignal` succeeds exactly when `0 ≤ start_bit` and `1 ≤ length ≤ 64` —
a LIN signal whose bit range exceeds 64 bits is accepted. -/
theorem C2_bit_range_bound (name sname : String) (sb len : ℤ)
    (hn : name ≠ "") (hs : sname ≠ "") :
    (exOk (mkCANSignal name sname sb len) = true ↔
      0 ≤ sb ∧ 1 ≤ len ∧ len ≤ 64 ∧ sb + len ≤ 64) ∧
    (exOk (mkLINSignal name sname sb len) = true ↔
      0 ≤ sb ∧ 1 ≤ len ∧ len ≤ 64) := by
  constructor
  · unfold mkCANSignal
    rw [if_neg hn, if_neg hs]
    simp only [ite_self]
    split_ifs <;> simp_all [exOk] <;> omega
  · unfold mkLINSignal
    rw [if_neg hn, if_neg hs]
    split_ifs <;> simp_all [exOk]

/-- Witness for C2 (amended): boundary instances start_bit 0, length 64
succeed on both signal kinds. -/
theorem C2_bit_range_bound_witness :
    exOk (mkCANSignal "S" "S" 0 64) = true ∧ exOk (mkLINSignal "S" "S" 0 64) = true :=
  ⟨(C2_bit_range_bound "S" "S" 0 64 (by decide) (by decide)).1.mpr (by norm_num),
   (C2_bit_range_bound "S" "S" 0 64 (by decide) (by decide)).2.mpr (by norm_num)⟩

/-- Counterexample for C2 as stated: a `LINSignal` with start_bit 64 and
length 8 — bit range 64+8 > 64 — is constructed successfully instead of
failing with a range error. -/
theorem C2_lin_signal_exceeds_64 :
    exOk (mkLINSignal "S" "S" 64 8) = true ∧ (64 : ℤ) + 8 > 64 := by
  exact ⟨by decide, by decide⟩

/-- C6: id 0x800 with the extended flag off is rejected with an error
mentioning "Standard frame"; the same id with the flag on is accepted; in
general (valid dlc fixed at 8) construction succeeds exactly when the id is
within 0..0x7FF for standard frames and 0..0x1FFFFFFF for extended ones. -/
theorem C6_extended_frame_gating :
    (mkCANMessage "M" "M" false 0x800 8 =
        .error "Standard frame ID must be <= 0x7FF, got 0x800" ∧
      containsSub "Standard frame ID must be <= 0x7FF, got 0x800" "Standard frame" = true) ∧
    exOk (mkCANMessage "M" "M" true 0x800 8) = true ∧
    ∀ (ext : Bool) (id : ℤ),
      (exOk (mkCANMessage "M" "M" ext id 8) = true ↔
        0 ≤ id ∧ id ≤ if ext then 0x1FFFFFFF else 0x7FF) := by
  refine ⟨⟨by rfl, by decide⟩, by decide, ?_⟩
  intro ext id
  unfold mkCANMessage
  rw [if_neg (by decide : ¬("M" : String) = ""), if_neg (by decide : ¬("M" : String) = "")]
  cases ext <;> split_ifs <;> simp_all [exOk] <;> omega

/-- Unfolding of string append to character-list append. -/
theorem strData_append (s t : String) : (s ++ t).data = s.data ++ t.data := rfl

/-- A pattern occurs in any character list that contains it contiguously. -/
theorem listContainsSub_append (a p b : List Char) :
    listContainsSub (a ++ (p ++ b)) p = true := by
  unfold listContainsSub
  rw [List.any_eq_true]
  refine ⟨a.length, ?_, ?_⟩
  · rw [List.mem_range, List.length_append]
    omega
  · rw [List.drop_left, List.isPrefixOf_iff_prefix]
    exact List.prefix_append p b

/-- String version of `listContainsSub_append`. -/
theorem containsSub_append (x y z : String) : containsSub (x ++ (y ++ z)) y = true := by
  unfold containsSub
  rw [show (x ++ (y ++ z)).data = x.data ++ (y.data ++ z.data) from rfl]
  exact listContainsSub_append _ _ _

/-- Joining mapped strings keeps every mapped element as a contiguous block. -/
theorem joinWith_data_split (sep : String) (f : String → String) (l : List String)
    (v : String) (hv : v ∈ l) :
    ∃ x z : List Char, (joinWith sep (l.map f)).data = x ++ ((f v).data ++ z) := by
  induction l with
  | nil => cases hv
  | cons a l ih =>
    rcases List.mem_cons.mp hv with rfl | hv'
    · cases l with
      | nil => exact ⟨[], [], by simp [joinWith]⟩
      | cons b l' =>
        refine ⟨[], (sep ++ joinWith sep ((b :: l').map f)).data, ?_⟩
        simp only [List.map_cons, joinWith, strData_append, List.append_assoc,
          List.nil_append]
    · obtain ⟨x, z, hxz⟩ := ih hv'
      cases l with
      | nil => cases hv'
      | cons b l' =>
        refine ⟨(f a ++ sep).data ++ x, z, ?_⟩
        simp only [List.map_cons, joinWith, strData_append, List.append_assoc] at hxz ⊢
        rw [hxz]

/-- Characterisation of an empty violation list for one CAN network's scan:
no message id repeats (or appears in `seen`) and no signal exceeds its
message size. -/
theorem canMsgViolationsAux_eq_nil (net : String) (seen : List ℤ)
    (msgs : List CANMessage) :
    canMsgViolationsAux net seen msgs = [] ↔
      ((∀ m ∈ msgs, m.message_id ∉ seen) ∧
       (msgs.map (·.message_id)).Nodup ∧
       ∀ m ∈ msgs, ∀ s ∈ m.signals, s.start_bit + s.length ≤ m.dlc * 8) := by
  induction msgs generalizing seen with
  | nil => simp [canMsgViolationsAux]
  | cons msg rest ih =>
    rw [canMsgViolationsAux, List.append_eq_nil, List.append_eq_nil, ih]
    constructor
    · rintro ⟨⟨h1, h2⟩, h3, h4, h5⟩
      have hmem : msg.message_id ∉ seen := by
        intro hc
        rw [if_pos (List.elem_iff.mpr hc)] at h1
        exact absurd h1 (by simp)
      have hne : ∀ m ∈ rest, m.message_id ≠ msg.message_id := by
        intro m hm
        have := h3 m hm
        simp [List.mem_append] at this
        exact this.2
      refine ⟨?_, ?_, ?_⟩
      · intro m hm
        rcases List.mem_cons.mp hm with rfl | hm'
        · exact hmem
        · have := h3 m hm'
          simp [List.mem_append] at this
          exact this.1
      · rw [List.map_cons, List.nodup_cons]
        refine ⟨?_, h4⟩
        intro hc
        obtain ⟨m, hm, hme⟩ := List.mem_map.mp hc
        exact hne m hm hme
      · intro m hm
        rcases List.mem_cons.mp hm with rfl | hm'
        · intro s hs
          have := List.filterMap_eq_nil_iff.mp h2 s hs
          by_cases hgt : s.start_bit + s.length > m.dlc * 8
          · rw [if_pos hgt] at this
            exact absurd this (by simp)
          · omega
        · exact h5 m hm'
    · rintro ⟨h1, h2, h3⟩
      have hmem : msg.message_id ∉ seen := h1 msg (List.mem_cons_self _ _)
      have hrest : ∀ m ∈ rest, m.message_id ∉ seen := fun m hm =>
        h1 m (List.mem_cons_of_mem _ hm)
      rw [List.map_cons, List.nodup_cons] at h2
      refine ⟨⟨?_, ?_⟩, ?_, h2.2, ?_⟩
      · rw [if_neg (fun hc => hmem (List.elem_iff.mp hc))]
      · rw [List.filterMap_eq_nil_iff]
        intro s hs
        rw [if_neg (by have := h3 msg (List.mem_cons_self _ _) s hs; omega)]
      · intro m hm
        simp only [List.mem_append, List.mem_singleton]
        push_neg
        refine ⟨hrest m hm, ?_⟩
        intro he
        exact h2.1 (List.mem_map.mpr ⟨m, hm, he⟩)
      · intro m hm
        exact h3 m (List.mem_cons_of_mem _ hm)

/-- Characterisation of an empty violation list for one LIN network's scan. -/
theorem linFrameViolationsAux_eq_nil (net : String) (seen : List ℤ)
    (frames : List LINFrame) :
    linFrameViolationsAux net seen frames = [] ↔
      ((∀ f ∈ frames, f.frame_id ∉ seen) ∧
       (frames.map (·.frame_id)).Nodup ∧
       ∀ f ∈ frames, ∀ s ∈ f.signals, s.start_bit + s.length ≤ f.length * 8) := by
  induction frames generalizing seen with
  | nil => simp [linFrameViolationsAux]
  | cons frame rest ih =>
    rw [linFrameViolationsAux, List.append_eq_nil, List.append_eq_nil, ih]
    constructor
    · rintro ⟨⟨h1, h2⟩, h3, h4, h5⟩
      have hmem : frame.frame_id ∉ seen := by
        intro hc
        rw [if_pos (List.elem_iff.mpr hc)] at h1
        exact absurd h1 (by simp)
      have hne : ∀ f ∈ rest, f.frame_id ≠ frame.frame_id := by
        intro f hf
        have := h3 f hf
        simp [List.mem_append] at this
        exact this.2
      refine ⟨?_, ?_, ?_⟩
      · intro f hf
        rcases List.mem_cons.mp hf with rfl | hf'
        · exact hmem
        · have := h3 f hf'
          simp [List.mem_append] at this
          exact this.1
      · rw [List.map_cons, List.nodup_cons]
        refine ⟨?_, h4⟩
        intro hc
        obtain ⟨f, hf, hfe⟩ := List.mem_map.mp hc
        exact hne f hf hfe
      · intro f hf
        rcases List.mem_cons.mp hf with rfl | hf'
        · intro s hs
          have := List.filterMap_eq_nil_iff.mp h2 s hs
          by_cases hgt : s.start_bit + s.length > f.length * 8
          · rw [if_pos hgt] at this
            exact absurd this (by simp)
          · omega
        · exact h5 f hf'
    · rintro ⟨h1, h2, h3⟩
      have hmem : frame.frame_id ∉ seen := h1 frame (List.mem_cons_self _ _)
      have hrest : ∀ f ∈ rest, f.frame_id ∉ seen := fun f hf =>
        h1 f (List.mem_cons_of_mem _ hf)
      rw [List.map_cons, List.nodup_cons] at h2
      refine ⟨⟨?_, ?_⟩, ?_, h2.2, ?_⟩
      · rw [if_neg (fun hc => hmem (List.elem_iff.mp hc))]
      · rw [List.filterMap_eq_nil_iff]
        intro s hs
        rw [if_neg (by have := h3 frame (List.mem_cons_self _ _) s hs; omega)]
      · intro f hf
        simp only [List.mem_append, List.mem_singleton]
        push_neg
        refine ⟨hrest f hf, ?_⟩
        intro he
        exact h2.1 (List.mem_map.mpr ⟨f, hf, he⟩)
      · intro f hf
        exact h3 f (List.mem_cons_of_mem _ hf)

/-- The accumulated violation list is empty exactly when no declarative
violation exists in the service state. -/
theorem collectViolations_eq_nil (st : ServiceState) :
    collectViolations st = [] ↔ ¬ st.hasViolation := by
  unfold collectViolations ServiceState.hasViolation
  rw [List.append_eq_nil, List.flatMap_eq_nil_iff, List.flatMap_eq_nil_iff]
  constructor
  · rintro ⟨hcan, hlin⟩
    push_neg
    constructor
    · intro p hp
      have h := hcan p hp
      unfold canMsgViolations at h
      rw [canMsgViolationsAux_eq_nil] at h
      unfold CANDatabase.hasViolation
      push_neg
      exact ⟨h.2.1, fun m hm s hs => h.2.2 m hm s hs⟩
    · intro p hp
      have h := hlin p hp
      unfold linFrameViolations at h
      rw [linFrameViolationsAux_eq_nil] at h
      unfold LINNetwork.hasViolation
      push_neg
      exact ⟨h.2.1, fun f hf s hs => h.2.2 f hf s hs⟩
  · intro h
    push_neg at h
    refine ⟨?_, ?_⟩
    · intro p hp
      have hv := h.1 p hp
      unfold CANDatabase.hasViolation at hv
      push_neg at hv
      unfold canMsgViolations
      rw [canMsgViolationsAux_eq_nil]
      exact ⟨by simp, hv.1, fun m hm s hs => hv.2 m hm s hs⟩
    · intro p hp
      have hv := h.2 p hp
      unfold LINNetwork.hasViolation at hv
      push_neg at hv
      unfold linFrameViolations
      rw [linFrameViolationsAux_eq_nil]
      exact ⟨by simp, hv.1, fun f hf s hs => hv.2 f hf s hs⟩

/-- C4: `validate_data` scans every CAN and LIN network, accumulating every
duplicate-id and oversized-signal violation; it succeeds (returning True)
exactly when no violation exists, and otherwise raises one error whose
message lists every accumulated violation. -/
theorem C4_validate_data_accumulates (st : ServiceState) :
    (exOk (validate_data st) = true ↔ ¬ st.hasViolation) ∧
    (validate_data st = .ok true ∨ ∃ e, validate_data st = .error e) ∧
    (∀ e, validate_data st = .error e →
      ∀ v ∈ collectViolations st, containsSub e v = true) := by
  refine ⟨?_, ?_, ?_⟩
  · rw [← collectViolations_eq_nil]
    unfold validate_data
    dsimp only
    split
    · simp [exOk]
      assumption
    · simp [exOk]
      assumption
  · unfold validate_data
    dsimp only
    split
    · exact Or.inl rfl
    · exact Or.inr ⟨_, rfl⟩
  · intro e he v hv
    unfold validate_data at he
    dsimp only at he
    split at he
    · exact absurd he (by simp)
    · rw [Except.error.injEq] at he
      obtain ⟨x, z, hxz⟩ :=
        joinWith_data_split "\n" (fun s => "  - " ++ s) (collectViolations st) v hv
      unfold containsSub
      rw [← he]
      rw [show ("Validation failed:\n" ++
        joinWith "\n" ((collectViolations st).map (fun e => "  - " ++ e))).data =
        "Validation failed:\n".data ++
          (joinWith "\n" ((collectViolations st).map (fun e => "  - " ++ e))).data
        from rfl]
      rw [hxz, show ("  - " ++ v).data = "  - ".data ++ v.data from rfl]
      rw [show "Validation failed:\n".data ++ (x ++ ("  - ".data ++ v.data ++ z)) =
        ("Validation failed:\n".data ++ x ++ "  - ".data) ++ (v.data ++ z) by
          simp [List.append_assoc]]
      exact listContainsSub_append _ _ _

/-- Witness for C4: the accumulated error for the duplicate-id state `stDup`
contains its one violation string. -/
theorem C4_validate_data_accumulates_witness : containsSub eDup vDup = true :=
  (C4_validate_data_accumulates stDup).2.2 eDup (by rfl) vDup (by decide)

/-- Counterexample for C3 as stated: a LIN network with no master node
passes `validate_data` without any reported violation — the service-level
validation pass does not enforce the at-least-one-master invariant. -/
theorem C3_validate_data_accepts_no_master :
    linNoMaster.master_node = none ∧ validate_data stNoMaster = .ok true :=
  ⟨rfl, rfl⟩

/-- C3 (amended): the at-least-one-master invariant is enforced only by the
LDF parser's own `validate`; `ECUCService.validate_data` ignores master
nodes entirely (its outcome is unchanged when every master is removed),
while `LDFLoader.validate` rejects parsed data with no master node. -/
theorem C3_master_check_is_in_ldf_validate_only :
    (∀ st : ServiceState, validate_data st.stripMasters = validate_data st) ∧
    (∀ d : LDFData, d.nodes.filter (fun n => n.ntype == "master") = [] →
      ldf_validate d = .error "LIN network must have at least one master node") := by
  constructor
  · intro st
    have h : collectViolations st.stripMasters = collectViolations st := by
      unfold collectViolations ServiceState.stripMasters
      simp [List.flatMap_map]
    unfold validate_data
    rw [h]
  · intro d hd
    unfold ldf_validate
    rw [if_pos hd]

/-- Witness for C3 (amended): LDF data with no nodes is rejected by the
parser-level validation. -/
theorem C3_master_check_witness :
    ldf_validate ldfNoMaster = .error "LIN network must have at least one master node" :=
  C3_master_check_is_in_ldf_validate_only.2 ldfNoMaster (by rfl)

/-- Counterexample for C5 as stated: for two CAN messages `MsgA`/`MsgB`
sharing id 0x100, and likewise for two LIN frames `FrA`/`FrB` sharing
id 0x10, the single violation produced mentions the shared id but names
neither offending entity. -/
theorem C5_violation_names_neither_entity :
    collectViolations stDup = [vDup] ∧
    containsSub vDup "0x100" = true ∧
    containsSub vDup "MsgA" = false ∧
    containsSub vDup "MsgB" = false ∧
    collectViolations stDupLin = [vDupLin] ∧
    containsSub vDupLin "0x10" = true ∧
    containsSub vDupLin "FrA" = false ∧
    containsSub vDupLin "FrB" = false :=
  ⟨by rfl, by decide, by decide, by decide, by rfl, by decide, by decide, by decide⟩

/-- C5 (amended): on both the CAN and the LIN path, two entities sharing an
id yield exactly one violation, which mentions the shared id and the network
but not the entity names; with three entities sharing an id, two violations
are reported (one per occurrence after the first), not just one for the
first pair. -/
theorem C5_duplicate_id_reporting (net n1 n2 n3 : String) (id : ℤ) :
    canMsgViolations net [plainMsg n1 id, plainMsg n2 id] =
      ["Duplicate CAN message ID " ++ intHexHash id ++ " in network '" ++ net ++ "'"] ∧
    (canMsgViolations net [plainMsg n1 id, plainMsg n2 id, plainMsg n3 id]).length = 2 ∧
    containsSub
      ("Duplicate CAN message ID " ++ intHexHash id ++ " in network '" ++ net ++ "'")
      (intHexHash id) = true ∧
    linFrameViolations net [plainFrame n1 id, plainFrame n2 id] =
      ["Duplicate LIN frame ID " ++ intHexHash id ++ " in network '" ++ net ++ "'"] ∧
    (linFrameViolations net [plainFrame n1 id, plainFrame n2 id, plainFrame n3 id]).length = 2 ∧
    containsSub
      ("Duplicate LIN frame ID " ++ intHexHash id ++ " in network '" ++ net ++ "'")
      (intHexHash id) = true := by
  refine ⟨?_, ?_, ?_, ?_, ?_, ?_⟩
  · simp [canMsgViolations, canMsgViolationsAux, plainMsg, List.contains, List.elem]
  · simp [canMsgViolations, canMsgViolationsAux, plainMsg, List.contains, List.elem]
  · rw [show "Duplicate CAN message ID " ++ intHexHash id ++ " in network '" ++ net ++ "'" =
      "Duplicate CAN message ID " ++
        (intHexHash id ++ (" in network '" ++ (net ++ "'"))) by
        simp [String.append_assoc]]
    exact containsSub_append _ _ _
  · simp [linFrameViolations, linFrameViolationsAux, plainFrame, List.contains, List.elem]
  · simp [linFrameViolations, linFrameViolationsAux, plainFrame, List.contains, List.elem]
  · rw [show "Duplicate LIN frame ID " ++ intHexHash id ++ " in network '" ++ net ++ "'" =
      "Duplicate LIN frame ID " ++
        (intHexHash id ++ (" in network '" ++ (net ++ "'"))) by
        simp [String.append_assoc]]
    exact containsSub_append _ _ _

/-- Successful `LINSignal` construction returns exactly the record built
from its arguments. -/
theorem mkLINSignal_ok (n sn : String) (sb len : ℤ) (iv : Option ℚ)
    (pub : Option String) (subs : List String) (s : LINSignal)
    (h : mkLINSignal n sn sb len iv pub subs = .ok s) :
    s = { name := n, short_name := sn, start_bit := sb, length := len,
          initial_value := iv, publisher := pub, subscribers := subs } := by
  unfold mkLINSignal at h
  split_ifs at h
  injection h with h'
  exact h'.symm

/-- Successful `LINFrame` construction returns exactly the record built from
its arguments. -/
theorem mkLINFrame_ok (n sn : String) (fid len : ℤ) (sigs : List LINSignal)
    (pub : Option String) (fr : LINFrame)
    (h : mkLINFrame n sn fid len sigs pub = .ok fr) :
    fr = { name := n, short_name := sn, frame_id := fid, length := len,
           signals := sigs, publisher := pub } := by
  unfold mkLINFrame at h
  split_ifs at h
  injection h with h'
  exact h'.symm

/-- A successful first conversion loop yields one map entry per declaration,
each carrying the base signal instantiated at `start_bit = 0`. -/
theorem buildSignalMap_ok :
    ∀ (decls : List LDFSignalData) (m : List (String × LINSignal)),
      buildSignalMap decls = .ok m →
      m = decls.map (fun sd => (sd.name, baseSignalOf sd))
  | [], m, h => by
      rw [buildSignalMap] at h
      injection h with h'
      simp [← h']
  | sd :: rest, m, h => by
      rw [buildSignalMap] at h
      split at h
      · exact absurd h (by simp)
      · rename_i s hs
        split at h
        · exact absurd h (by simp)
        · rename_i m' hm'
          injection h with h'
          rw [List.map_cons, ← buildSignalMap_ok rest m' hm', ← h']
          rw [mkLINSignal_ok _ _ _ _ _ _ _ _ hs]
          rfl

/-- Looking a name up in the built signal map is resolution against the
declarations (last declaration wins), instantiated at `start_bit = 0`. -/
theorem dictLookup_buildSignalMap (decls : List LDFSignalData) (k : String) :
    dictLookup (decls.map (fun sd => (sd.name, baseSignalOf sd))) k =
      (declLookup decls k).map baseSignalOf := by
  unfold dictLookup declLookup
  rw [← List.map_reverse, List.find?_map]
  have hp : ((fun p : String × LINSignal => p.1 == k) ∘
      (fun sd => (sd.name, baseSignalOf sd))) = fun sd => sd.name == k := rfl
  rw [hp]
  cases decls.reverse.find? (fun sd => sd.name == k) <;> rfl

/-- Spec-side resolution step: an undeclared reference contributes nothing. -/
theorem specResolvedSignals_cons_none (decls : List LDFSignalData)
    (ref : LDFFrameSignalRef) (rest : List LDFFrameSignalRef)
    (hl : declLookup decls ref.name = none) :
    specResolvedSignals decls (ref :: rest) = specResolvedSignals decls rest := by
  simp [specResolvedSignals, List.filterMap_cons, hl]

/-- Spec-side resolution step: a declared reference contributes one
position-specific copy. -/
theorem specResolvedSignals_cons_some (decls : List LDFSignalData)
    (ref : LDFFrameSignalRef) (rest : List LDFFrameSignalRef)
    (sd : LDFSignalData) (hl : declLookup decls ref.name = some sd) :
    specResolvedSignals decls (ref :: rest) =
      copyAt sd ref.offset :: specResolvedSignals decls rest := by
  simp [specResolvedSignals, List.filterMap_cons, hl]

/-- A successful per-frame resolution produces exactly the spec's
position-specific copies: each declared reference contributes a fresh signal
whose `start_bit` is that reference's offset and whose remaining fields come
from the declaration; undeclared references contribute nothing. -/
theorem resolveFrameSignals_ok (decls : List LDFSignalData) :
    ∀ (refs : List LDFFrameSignalRef) (sigs : List LINSignal),
      resolveFrameSignals (decls.map (fun sd => (sd.name, baseSignalOf sd))) refs = .ok sigs →
      sigs = specResolvedSignals decls refs
  | [], sigs, h => by
      rw [resolveFrameSignals] at h
      injection h with h'
      simp [specResolvedSignals, ← h']
  | ref :: rest, sigs, h => by
      rw [resolveFrameSignals] at h
      rcases hl : declLookup decls ref.name with _ | sd
      · rw [dictLookup_buildSignalMap, hl] at h
        simp only [Option.map_none'] at h
        rw [specResolvedSignals_cons_none decls ref rest hl]
        exact resolveFrameSignals_ok decls rest sigs h
      · rw [dictLookup_buildSignalMap, hl] at h
        simp only [Option.map_some'] at h
        split at h
        · exact absurd h (by simp)
        · rename_i s2 hs2
          split at h
          · exact absurd h (by simp)
          · rename_i srest hrest
            injection h with h'
            rw [specResolvedSignals_cons_some decls ref rest sd hl, ← h']
            congr 1
            · rw [mkLINSignal_ok _ _ _ _ _ _ _ _ hs2]
              rfl
            · exact resolveFrameSignals_ok decls rest srest hrest

/-- A successful frame conversion loop pairs output frames with their frame
data one-to-one; each output frame's signal list is the spec's resolved
list for that frame block. -/
theorem buildFrames_ok (decls : List LDFSignalData) :
    ∀ (fds : List LDFFrameData) (frs : List LINFrame),
      buildFrames (decls.map (fun sd => (sd.name, baseSignalOf sd))) fds = .ok frs →
      List.Forall₂ (fun (fr : LINFrame) (fd : LDFFrameData) =>
        fr.signals = specResolvedSignals decls fd.signals) frs fds
  | [], frs, h => by
      rw [buildFrames] at h
      injection h with h'
      rw [← h']
      exact List.Forall₂.nil
  | fd :: rest, frs, h => by
      rw [buildFrames] at h
      split at h
      · exact absurd h (by simp)
      · rename_i fsigs hsigs
        split at h
        · exact absurd h (by simp)
        · rename_i fr hfr
          split at h
          · exact absurd h (by simp)
          · rename_i frest hrest
            injection h with h'
            rw [← h']
            refine List.Forall₂.cons ?_ (buildFrames_ok decls rest frest hrest)
            rw [mkLINFrame_ok _ _ _ _ _ _ _ hfr]
            exact resolveFrameSignals_ok decls fd.signals fsigs hsigs

/-- C7: whenever `to_model` succeeds, every produced frame's signal list is
exactly the list of position-specific copies of declared signals: one fresh
`LINSignal` per declared reference, carrying that reference's offset as its
`start_bit` and the declaration's remaining fields (length, initial value,
publisher, subscribers) — so the same declared signal referenced by two
frames (or twice) yields distinct per-position instances, never a shared
one. -/
theorem C7_frame_signals_are_fresh_copies (d : LDFData) (net : LINNetwork)
    (h : to_model d = .ok net) :
    List.Forall₂ (fun (fr : LINFrame) (fd : LDFFrameData) =>
      fr.signals = specResolvedSignals d.signals fd.signals) net.frames d.frames := by
  unfold to_model at h
  split at h
  · rename_i net' hcore
    injection h with h'
    subst h'
    unfold to_model_core at hcore
    dsimp only at hcore
    split at hcore
    · exact absurd hcore (by simp)
    · rename_i sigMap hsig
      split at hcore
      · exact absurd hcore (by simp)
      · rename_i frames hframes
        split at hcore
        · exact absurd hcore (by simp)
        · rename_i p hnodes
          split at hcore
          · exact absurd hcore (by simp)
          · rename_i tables htables
            split at hcore
            · exact absurd hcore (by simp)
            · injection hcore with h2
              rw [← h2]
              rw [buildSignalMap_ok d.signals sigMap hsig] at hframes
              exact buildFrames_ok d.signals d.frames frames hframes
  · exact absurd h (by simp)

/-- Witness for C7: the theorem applied to the concrete LDF data `exLdf`,
whose conversion yields `exNet`. -/
theorem C7_frame_signals_witness :
    List.Forall₂ (fun (fr : LINFrame) (fd : LDFFrameData) =>
      fr.signals = specResolvedSignals exLdf.signals fd.signals)
      exNet.frames exLdf.frames :=
  C7_frame_signals_are_fresh_copies exLdf exNet (by rfl)

/-- A successful per-frame resolution yields exactly one signal per
reference whose name resolves in the signal map. -/
theorem resolveFrameSignals_length (sigMap : List (String × LINSignal)) :
    ∀ (refs : List LDFFrameSignalRef) (sigs : List LINSignal),
      resolveFrameSignals sigMap refs = .ok sigs →
      sigs.length = (refs.filter (fun x => (dictLookup sigMap x.name).isSome)).length
  | [], sigs, h => by
      rw [resolveFrameSignals] at h
      injection h with h'
      simp [← h']
  | ref :: rest, sigs, h => by
      rw [resolveFrameSignals] at h
      rw [List.filter_cons]
      rcases hl : dictLookup sigMap ref.name with _ | s
      · rw [hl] at h
        dsimp only at h
        rw [if_neg (by simp)]
        exact resolveFrameSignals_length sigMap rest sigs h
      · rw [hl] at h
        dsimp only at h
        split at h
        · exact absurd h (by simp)
        · rename_i s2 hs2
          split at h
          · exact absurd h (by simp)
          · rename_i srest hrest
            injection h with h'
            rw [if_pos (by simp), ← h']
            simp only [List.length_cons]
            rw [resolveFrameSignals_length sigMap rest srest hrest]

/-- C9: a frame-block signal reference whose name is not among the declared
signals is silently dropped: resolving with the unknown reference present
gives exactly the same result as without it (no error and no extra entry),
and a successful resolution has one signal per declared reference — fewer
than the block lists whenever an unknown name appears. -/
theorem C9_undeclared_reference_dropped (sigMap : List (String × LINSignal))
    (refs : List LDFFrameSignalRef) (r : LDFFrameSignalRef)
    (hl : dictLookup sigMap r.name = none) :
    resolveFrameSignals sigMap (r :: refs) = resolveFrameSignals sigMap refs ∧
    ∀ sigs, resolveFrameSignals sigMap refs = .ok sigs →
      sigs.length = (refs.filter (fun x => (dictLookup sigMap x.name).isSome)).length := by
  constructor
  · rw [resolveFrameSignals, hl]
  · exact resolveFrameSignals_length sigMap refs

/-- Witness for C9: against a map declaring only `Sig`, a block listing
`Sig` and the unknown `Ghost` resolves to the one declared signal. -/
theorem C9_undeclared_reference_dropped_witness :
    resolveFrameSignals sigMapEx (ghostRef :: refsEx) = resolveFrameSignals sigMapEx refsEx ∧
    resolvedEx.length =
      (refsEx.filter (fun x => (dictLookup sigMapEx x.name).isSome)).length :=
  ⟨(C9_undeclared_reference_dropped sigMapEx refsEx ghostRef (by rfl)).1,
   (C9_undeclared_reference_dropped sigMapEx refsEx ghostRef (by rfl)).2 resolvedEx (by rfl)⟩

/-- The module-generation loop builds one module (named after the request)
per supported requested name, in request order, and one skip warning per
unsupported requested name. -/
theorem generateModulesLoop_spec (st : ServiceState) :
    ∀ mods : List String,
      ((generateModulesLoop st mods).1.map (·.short_name) =
        mods.filter (fun m => supportedModules.contains m)) ∧
      ((generateModulesLoop st mods).2 =
        (mods.filter (fun m => ¬ supportedModules.contains m)).map
          (fun m => "Module '" ++ m ++ "' not yet implemented"))
  | [] => by simp [generateModulesLoop]
  | m :: rest => by
      have ih := generateModulesLoop_spec st rest
      have hc : supportedModules.contains m =
          (m == "CanIf" || (m == "Can" || (m == "LinIf" || m == "Lin"))) := by
        show (m == "CanIf" || (m == "Can" || (m == "LinIf" || (m == "Lin" || false)))) = _
        cases m == "CanIf" <;> cases m == "Can" <;> cases m == "LinIf" <;>
          cases m == "Lin" <;> rfl
      rw [generateModulesLoop]
      by_cases h1 : m == "CanIf"
      · simp_all [List.filter_cons, hc, generate_canif_module]
      · by_cases h2 : m == "Can"
        · simp_all [List.filter_cons, hc, generate_can_module]
        · by_cases h3 : m == "LinIf"
          · simp_all [List.filter_cons, hc, generate_linif_module]
          · by_cases h4 : m == "Lin"
            · simp_all [List.filter_cons, hc, generate_lin_module]
            · simp_all [List.filter_cons, hc]

/-- C8 (amended): with `modules = None`, the requested set defaults to
CanIf, Can, CanTp, PduR when a CAN network is loaded plus LinIf, Lin when a
LIN network is loaded; generation then emits one module per supported
requested name (CanIf, Can, LinIf, Lin) and skips every other requested
name — including the defaults CanTp and PduR — with a warning and no hard
failure, so the resulting collection holds exactly the supported part of
the requested set. -/
theorem C8_default_and_skip_policy (st : ServiceState) (pn ei : String)
    (ms : Option (List String)) (hv : collectViolations st = []) :
    generatedNamesAndWarnings (generate_ecuc_project st pn ei ms) =
      some ((ms.getD (defaultModules st)).filter (fun m => supportedModules.contains m),
        ((ms.getD (defaultModules st)).filter
            (fun m => ¬ supportedModules.contains m)).map
          (fun m => "Module '" ++ m ++ "' not yet implemented")) := by
  have hloop := generateModulesLoop_spec st (ms.getD (defaultModules st))
  have hvd : validate_data st = .ok true := by
    unfold validate_data
    dsimp only
    rw [if_pos hv]
  unfold generate_ecuc_project
  rw [hvd]
  unfold generatedNamesAndWarnings
  dsimp only [Except.toOption, Option.map_some']
  rw [hloop.1, hloop.2]

/-- Witness for C8 (amended): the theorem applied to the loaded CAN-only
state `stCan8` with the default module selection. -/
theorem C8_default_and_skip_policy_witness :
    generatedNamesAndWarnings (generate_ecuc_project stCan8 "Proj" "Ecu" none) =
      some (((none : Option (List String)).getD (defaultModules stCan8)).filter
              (fun m => supportedModules.contains m),
        (((none : Option (List String)).getD (defaultModules stCan8)).filter
            (fun m => ¬ supportedModules.contains m)).map
          (fun m => "Module '" ++ m ++ "' not yet implemented")) :=
  C8_default_and_skip_policy stCan8 "Proj" "Ecu" none (by rfl)

/-- Counterexample for C8 as stated: with one CAN network loaded and
`modules = None`, the generated collection contains only the CanIf and Can
modules — the defaulted CanTp and PduR are skipped with warnings, so the
"default module set CanIf, Can, CanTp, PduR" is not what gets generated. -/
theorem C8_cantp_pdur_not_generated :
    generatedNamesAndWarnings (generate_ecuc_project stCan8 "P" "E" none) =
      some (["CanIf", "Can"],
        ["Module 'CanTp' not yet implemented", "Module 'PduR' not yet implemented"]) ∧
    "CanTp" ∉ (["CanIf", "Can"] : List String) :=
  ⟨by rfl, by decide⟩

/-- C10: `is_rx` holds for every message and `is_tx` exactly for messages
with a sender, so the generated CanIf module contains, per network, one
controller config, one TX PDU container per message with a sender, and one
RX PDU container for every message of the network. -/
theorem C10_rx_for_all_tx_for_senders :
    (∀ m : CANMessage, m.is_rx = true) ∧
    (∀ m : CANMessage, m.is_tx = m.sender.isSome) ∧
    (∀ st : ServiceState,
      (generate_canif_module st).containers.map
          (fun c => c.sub_containers.map ECUCContainerValue.short_name) =
        [st.can_networks.flatMap (fun p =>
          ("CanIfCtrlCfg_" ++ p.1) ::
          (((p.2.messages.filter (fun m => m.sender.isSome)).map
              (fun m => "CanIfTxPdu_" ++ p.1 ++ "_" ++ m.name)) ++
           (p.2.messages.map (fun m => "CanIfRxPdu_" ++ p.1 ++ "_" ++ m.name))))]) := by
  refine ⟨fun m => rfl, fun m => rfl, ?_⟩
  intro st
  unfold generate_canif_module
  simp only [List.map_cons, List.map_nil, ECUCContainerValue.sub_containers,
    List.map_flatMap]
  congr 1
  exact congrArg _ (funext fun p => by
    simp only [CANMessage.is_rx, CANMessage.is_tx, List.filter_true, List.map_cons,
      List.map_append, List.map_map]
    rfl)
